import Mathlib

/-!
Shallow embedding of the `entropy-dau` ingestion backend
(`src/entropy-backend/lib/main.js`, `validator.js`, `excelParser.js`).

Raw cell values are modelled by `JsValue`; JavaScript numbers are modelled
as rationals (no NaN value: a NaN-producing conversion is modelled by
`Option.none`).  The two validation schemas live in namespaces `V1`
(the wide IEEE-CIS schema) and `V2` (the narrow pre-engineered schema).
-/

/-- A raw cell value as it can appear in a parsed CSV/XLSX row. -/
inductive JsValue where
  | null
  | undefined
  | bool (b : Bool)
  | num (q : ℚ)
  | bigint (n : ℤ)
  | str (s : String)
deriving DecidableEq, Repr

/-- JavaScript whitespace test used by `trim` and numeric parsing. -/
def isWs (c : Char) : Bool := c.isWhitespace

/-- Remove the trailing run of whitespace characters. -/
def trimEnd : List Char → List Char
  | [] => []
  | c :: cs =>
    match trimEnd cs with
    | [] => if isWs c then [] else [c]
    | r => c :: r

/-- JavaScript `String.prototype.trim` on the character list: drop the
leading and the trailing whitespace run. -/
def trimChars (l : List Char) : List Char := trimEnd (l.dropWhile isWs)

/-- Digit character for a digit value below ten. -/
def digChar (d : ℕ) : Char :=
  if d = 0 then '0' else if d = 1 then '1' else if d = 2 then '2'
  else if d = 3 then '3' else if d = 4 then '4' else if d = 5 then '5'
  else if d = 6 then '6' else if d = 7 then '7' else if d = 8 then '8' else '9'

/-- Fuelled decimal rendering of a natural number (most significant first). -/
def natDigsGo : ℕ → ℕ → List Char → List Char
  | 0, _, acc => acc
  | fuel + 1, n, acc =>
    if n < 10 then digChar n :: acc
    else natDigsGo fuel (n / 10) (digChar (n % 10) :: acc)

/-- Decimal digits of a natural number. -/
def natDigs (n : ℕ) : List Char := natDigsGo (n + 1) n []

/-- Decimal rendering of an integer. -/
def intChars (n : ℤ) : List Char :=
  if n < 0 then '-' :: natDigs n.natAbs else natDigs n.natAbs

/-- Rendering of a rational: plain integer when the denominator is one,
`num/den` otherwise (the model's stand-in for JavaScript number printing). -/
def ratChars (q : ℚ) : List Char :=
  if q.den = 1 then intChars q.num else intChars q.num ++ '/' :: natDigs q.den

/-- JavaScript `String(value)`. -/
def jsToStr : JsValue → String
  | .null => "null"
  | .undefined => "undefined"
  | .bool b => if b then "true" else "false"
  | .num q => ⟨ratChars q⟩
  | .bigint n => ⟨intChars n⟩
  | .str s => s

/-- Numeric value of a digit character. -/
def digitVal (c : Char) : ℕ := c.toNat - 48

/-- Value of a digit run read most-significant-first. -/
def digitsToNat (l : List Char) : ℕ := l.foldl (fun a c => 10 * a + digitVal c) 0

/-- Split a leading digit run off a character list. -/
def parseDigits (l : List Char) : List Char × List Char :=
  (l.takeWhile Char.isDigit, l.dropWhile Char.isDigit)

/-- Parse an unsigned decimal mantissa (`123`, `123.45`, `.45`, `12.`),
returning its value and the unconsumed rest; `none` when no digit at all. -/
def parseMantissa (l : List Char) : Option (ℚ × List Char) :=
  let (ip, r1) := parseDigits l
  let (fp, r2) :=
    match r1 with
    | '.' :: r => parseDigits r
    | _ => ([], r1)
  if ip.isEmpty && fp.isEmpty then none
  else some ((digitsToNat ip : ℚ) + (digitsToNat fp : ℚ) / 10 ^ fp.length, r2)

/-- Parse an optional exponent part (`e5`, `E-3`); an `e` not followed by
digits is left unconsumed, like JavaScript number parsing does. -/
def parseExp (l : List Char) : ℤ × List Char :=
  match l with
  | 'e' :: r =>
    (match r with
     | '-' :: r2 =>
       let (d, r3) := parseDigits r2
       if d.isEmpty then (0, l) else (-(digitsToNat d : ℤ), r3)
     | '+' :: r2 =>
       let (d, r3) := parseDigits r2
       if d.isEmpty then (0, l) else ((digitsToNat d : ℤ), r3)
     | _ =>
       let (d, r3) := parseDigits r
       if d.isEmpty then (0, l) else ((digitsToNat d : ℤ), r3))
  | 'E' :: r =>
    (match r with
     | '-' :: r2 =>
       let (d, r3) := parseDigits r2
       if d.isEmpty then (0, l) else (-(digitsToNat d : ℤ), r3)
     | '+' :: r2 =>
       let (d, r3) := parseDigits r2
       if d.isEmpty then (0, l) else ((digitsToNat d : ℤ), r3)
     | _ =>
       let (d, r3) := parseDigits r
       if d.isEmpty then (0, l) else ((digitsToNat d : ℤ), r3))
  | _ => (0, l)

/-- Ten to an integer power, as a rational. -/
def tenPow (e : ℤ) : ℚ :=
  if 0 ≤ e then (10 : ℚ) ^ e.toNat else 1 / (10 : ℚ) ^ (-e).toNat

/-- Parse a signed decimal number at the head of the list, returning the
value and the unconsumed rest. -/
def parseNumLead (l : List Char) : Option (ℚ × List Char) :=
  let (neg, r0) :=
    match l with
    | '-' :: r => (true, r)
    | '+' :: r => (false, r)
    | _ => (false, l)
  match parseMantissa r0 with
  | none => none
  | some (m, r1) =>
    let (e, r2) := parseExp r1
    let v := m * tenPow e
    some (if neg then -v else v, r2)

/-- JavaScript `parseFloat` on a string: skip leading whitespace, parse the
longest numeric prefix, ignore the rest; NaN (no digits) is `none`. -/
def parseFloatStr (s : String) : Option ℚ :=
  (parseNumLead (s.data.dropWhile isWs)).map Prod.fst

/-- JavaScript `parseInt(s, 10)`: skip leading whitespace, optional sign,
then the longest digit prefix; NaN (no digits) is `none`. -/
def parseIntStr (s : String) : Option ℤ :=
  let l := s.data.dropWhile isWs
  let (neg, r) :=
    match l with
    | '-' :: r => (true, r)
    | '+' :: r => (false, r)
    | _ => (false, l)
  let (d, _) := parseDigits r
  if d.isEmpty then none
  else some (if neg then -(digitsToNat d : ℤ) else (digitsToNat d : ℤ))

/-- JavaScript `Number(s)` on a string: the whole trimmed string must be a
number; the empty/blank string is `0`; otherwise NaN is `none`. -/
def parseNumWhole (s : String) : Option ℚ :=
  let l := trimChars s.data
  if l.isEmpty then some 0
  else
    match parseNumLead l with
    | some (v, []) => some v
    | _ => none

/-- JavaScript `Number(value)` (`none` models NaN). -/
def jsNumber : JsValue → Option ℚ
  | .null => some 0
  | .undefined => none
  | .bool b => some (if b then 1 else 0)
  | .num q => some q
  | .bigint n => some n
  | .str s => parseNumWhole s

/-- JavaScript `parseFloat(value)`: the argument is stringified first; on an
already numeric value this round-trips to the same number in this model. -/
def jsParseFloat : JsValue → Option ℚ
  | .num q => some q
  | .bigint n => some n
  | .str s => parseFloatStr s
  | _ => none

/-- Truncation toward zero, as JavaScript `parseInt` behaves on the decimal
rendering of a number. -/
def ratTrunc (q : ℚ) : ℤ := if q < 0 then ⌈q⌉ else ⌊q⌋

/-- JavaScript `parseInt(value, 10)` after stringification. -/
def jsParseInt : JsValue → Option ℤ
  | .num q => some (ratTrunc q)
  | .bigint n => some n
  | .str s => parseIntStr s
  | _ => none

/-- JavaScript truthiness (`!!value`). -/
def jsTruthy : JsValue → Bool
  | .null => false
  | .undefined => false
  | .bool b => b
  | .num q => !(q == 0)
  | .bigint n => !(n == 0)
  | .str s => !(s == "")

/-- The guard `value === null || value === undefined || value === ""` shared
by all coercion helpers of the wide schema. -/
def isAbsent (v : JsValue) : Bool :=
  match v with
  | .null => true
  | .undefined => true
  | .str s => s == ""
  | _ => false

/-- JavaScript `String.prototype.toLowerCase` (character-wise, at the
list level). -/
def strToLower (s : String) : String := String.mk (s.data.map Char.toLower)

namespace V1

/-- The case-insensitive truthy-token test of the wide schema's regular
expression (`true`, `yes`, `1`, `y`, `t`). -/
def truthy1 (s : String) : Bool :=
  strToLower s == "true" || strToLower s == "yes" || strToLower s == "1" ||
    strToLower s == "y" || strToLower s == "t"

/-- `toBoolean` of the wide schema (`validator.js`). -/
def toBoolean (v : JsValue) : Bool :=
  if isAbsent v then false
  else
    match v with
    | .bool b => b
    | .num q => q == 1
    | .str s => truthy1 s
    | _ => false

/-- `toFloat` of the wide schema. -/
def toFloat (v : JsValue) : Option ℚ :=
  if isAbsent v then none else jsParseFloat v

/-- `toInt` of the wide schema. -/
def toInt (v : JsValue) : Option ℤ :=
  if isAbsent v then none else jsParseInt v

/-- `toBigInt` of the wide schema: `BigInt(Math.floor(Number(value)))`,
where a NaN argument makes `BigInt` throw and the catch yields null. -/
def toBigInt (v : JsValue) : Option ℤ :=
  if isAbsent v then none
  else
    match jsNumber v with
    | none => none
    | some q => some ⌊q⌋

/-- `toDecimal` of the wide schema: unparsable or absent values default
to `0`. -/
def toDecimal (v : JsValue) : ℚ :=
  if isAbsent v then 0 else (jsParseFloat v).getD 0

/-- `toString` of the wide schema: `String(value).trim()`. -/
def toString (v : JsValue) : Option String :=
  if isAbsent v then none else some (String.mk (trimChars (jsToStr v).data))

/-- `toChar` of the wide schema: first character of the trimmed
stringification, or null when that is empty. -/
def toChar (v : JsValue) : Option String :=
  if isAbsent v then none
  else
    match trimChars (jsToStr v).data with
    | [] => none
    | c :: _ => some (String.mk [c])

end V1

namespace V2

/-- The case-insensitive truthy-token test of the narrow schema's regular
expression (`true`, `yes`, `1`, `y` — without the letter `t`). -/
def truthy2 (s : String) : Bool :=
  strToLower s == "true" || strToLower s == "yes" || strToLower s == "1" ||
    strToLower s == "y"

/-- `toBoolean` of the narrow schema: booleans pass through, strings run
the token test, every other value falls back to JavaScript truthiness. -/
def toBoolean : JsValue → Bool
  | .bool b => b
  | .str s => truthy2 s
  | v => jsTruthy v

end V2

/-- A raw parsed row: an association list from column name to cell value;
a missing key reads as JavaScript `undefined`. -/
abbrev RawRow := List (String × JsValue)

/-- Property access `rawRow[k]` (absent keys give `undefined`). -/
def RawRow.get (r : RawRow) (k : String) : JsValue :=
  match r.find? (fun p => p.1 == k) with
  | some p => p.2
  | none => .undefined

/-- The identity-table column names of `excelParser.js` (`ID_COLUMNS`). -/
def ID_COLUMNS : List String :=
  ["id_01", "id_02", "id_03", "id_04", "id_05", "id_06", "id_07", "id_08", "id_09", "id_10", "id_11", "id_12", "id_13", "id_14", "id_15", "id_16", "id_17", "id_18", "id_19", "id_20", "id_21", "id_22", "id_23", "id_24", "id_25", "id_26", "id_27", "id_28", "id_29", "id_30", "id_31", "id_32", "id_33", "id_34", "id_35", "id_36", "id_37", "id_38"]

/-- The selected V-feature column names of `excelParser.js` (`V_COLUMNS`). -/
def V_COLUMNS : List String :=
  ["V1", "V3", "V4", "V6", "V8", "V11", "V13", "V14", "V17", "V20", "V23", "V26", "V27", "V30", "V36", "V37", "V40", "V41", "V44", "V47", "V48", "V54", "V56", "V59", "V62", "V65", "V67", "V68", "V70", "V76", "V78", "V80", "V82", "V86", "V88", "V89", "V91", "V107", "V108", "V111", "V115", "V117", "V120", "V121", "V123", "V124", "V127", "V129", "V130", "V136", "V138", "V139", "V142", "V147", "V156", "V160", "V162", "V165", "V166", "V169", "V171", "V173", "V175", "V176", "V178", "V180", "V182", "V185", "V187", "V188", "V198", "V203", "V205", "V207", "V209", "V210", "V215", "V218", "V220", "V221", "V223", "V224", "V226", "V228", "V229", "V234", "V235", "V238", "V240", "V250", "V252", "V253", "V257", "V258", "V260", "V261", "V264", "V266", "V267", "V271", "V274", "V277", "V281", "V283", "V284", "V285", "V286", "V289", "V291", "V294", "V296", "V297", "V301", "V303", "V305", "V307", "V309", "V310", "V314", "V320"]

/-- JavaScript falsiness, as in the guard `!rawRow.TransactionID`. -/
def jsFalsy (v : JsValue) : Bool :=
  match v with
  | .null => true
  | .undefined => true
  | .bool b => !b
  | .num q => q == 0
  | .bigint n => n == 0
  | .str s => s == ""

/-- JavaScript `value < 0`: both sides convert to numbers; a NaN
comparison is false. -/
def jsLtZero (v : JsValue) : Bool :=
  match jsNumber v with
  | some q => decide (q < 0)
  | none => false

/-- `value === undefined || value === null`. -/
def isNullish (v : JsValue) : Bool :=
  match v with
  | .undefined => true
  | .null => true
  | _ => false
structure Transaction where
  TransactionID : Option ℤ
  TransactionDT : Option ℤ
  TransactionAmt : ℚ
  ProductCD : Option String
  card1 : Option ℤ
  card2 : Option ℤ
  card3 : Option ℤ
  card4 : Option String
  card5 : Option ℤ
  card6 : Option String
  addr1 : Option ℤ
  addr2 : Option ℤ
  dist1 : Option ℚ
  dist2 : Option ℚ
  P_emaildomain : Option String
  R_emaildomain : Option String
  C1 : Option ℚ
  C2 : Option ℚ
  C3 : Option ℚ
  C4 : Option ℚ
  C5 : Option ℚ
  C6 : Option ℚ
  C7 : Option ℚ
  C8 : Option ℚ
  C9 : Option ℚ
  C10 : Option ℚ
  C11 : Option ℚ
  C12 : Option ℚ
  C13 : Option ℚ
  C14 : Option ℚ
  D1 : Option ℚ
  D2 : Option ℚ
  D3 : Option ℚ
  D4 : Option ℚ
  D5 : Option ℚ
  D6 : Option ℚ
  D7 : Option ℚ
  D8 : Option ℚ
  D9 : Option ℚ
  D10 : Option ℚ
  D11 : Option ℚ
  D12 : Option ℚ
  D13 : Option ℚ
  D14 : Option ℚ
  D15 : Option ℚ
  M1 : Option String
  M2 : Option String
  M3 : Option String
  M4 : Option String
  M5 : Option String
  M6 : Option String
  M7 : Option String
  M8 : Option String
  M9 : Option String
  isFraud : Bool
  status : String
deriving DecidableEq

structure Identity where
  id_01 : Option ℚ
  id_02 : Option ℚ
  id_03 : Option ℚ
  id_04 : Option ℚ
  id_05 : Option ℚ
  id_06 : Option ℚ
  id_07 : Option ℚ
  id_08 : Option ℚ
  id_09 : Option ℚ
  id_10 : Option ℚ
  id_11 : Option ℚ
  id_12 : Option String
  id_13 : Option ℚ
  id_14 : Option ℚ
  id_15 : Option String
  id_16 : Option String
  id_17 : Option ℚ
  id_18 : Option ℚ
  id_19 : Option ℚ
  id_20 : Option ℚ
  id_21 : Option ℚ
  id_22 : Option ℚ
  id_23 : Option String
  id_24 : Option ℚ
  id_25 : Option ℚ
  id_26 : Option ℚ
  id_27 : Option String
  id_28 : Option String
  id_29 : Option String
  id_30 : Option String
  id_31 : Option String
  id_32 : Option ℚ
  id_33 : Option String
  id_34 : Option String
  id_35 : Option String
  id_36 : Option String
  id_37 : Option String
  id_38 : Option String
  DeviceType : Option String
  DeviceInfo : Option String
deriving DecidableEq

structure VFeatures where
  V1 : Option ℚ
  V3 : Option ℚ
  V4 : Option ℚ
  V6 : Option ℚ
  V8 : Option ℚ
  V11 : Option ℚ
  V13 : Option ℚ
  V14 : Option ℚ
  V17 : Option ℚ
  V20 : Option ℚ
  V23 : Option ℚ
  V26 : Option ℚ
  V27 : Option ℚ
  V30 : Option ℚ
  V36 : Option ℚ
  V37 : Option ℚ
  V40 : Option ℚ
  V41 : Option ℚ
  V44 : Option ℚ
  V47 : Option ℚ
  V48 : Option ℚ
  V54 : Option ℚ
  V56 : Option ℚ
  V59 : Option ℚ
  V62 : Option ℚ
  V65 : Option ℚ
  V67 : Option ℚ
  V68 : Option ℚ
  V70 : Option ℚ
  V76 : Option ℚ
  V78 : Option ℚ
  V80 : Option ℚ
  V82 : Option ℚ
  V86 : Option ℚ
  V88 : Option ℚ
  V89 : Option ℚ
  V91 : Option ℚ
  V107 : Option ℚ
  V108 : Option ℚ
  V111 : Option ℚ
  V115 : Option ℚ
  V117 : Option ℚ
  V120 : Option ℚ
  V121 : Option ℚ
  V123 : Option ℚ
  V124 : Option ℚ
  V127 : Option ℚ
  V129 : Option ℚ
  V130 : Option ℚ
  V136 : Option ℚ
  V138 : Option ℚ
  V139 : Option ℚ
  V142 : Option ℚ
  V147 : Option ℚ
  V156 : Option ℚ
  V160 : Option ℚ
  V162 : Option ℚ
  V165 : Option ℚ
  V166 : Option ℚ
  V169 : Option ℚ
  V171 : Option ℚ
  V173 : Option ℚ
  V175 : Option ℚ
  V176 : Option ℚ
  V178 : Option ℚ
  V180 : Option ℚ
  V182 : Option ℚ
  V185 : Option ℚ
  V187 : Option ℚ
  V188 : Option ℚ
  V198 : Option ℚ
  V203 : Option ℚ
  V205 : Option ℚ
  V207 : Option ℚ
  V209 : Option ℚ
  V210 : Option ℚ
  V215 : Option ℚ
  V218 : Option ℚ
  V220 : Option ℚ
  V221 : Option ℚ
  V223 : Option ℚ
  V224 : Option ℚ
  V226 : Option ℚ
  V228 : Option ℚ
  V229 : Option ℚ
  V234 : Option ℚ
  V235 : Option ℚ
  V238 : Option ℚ
  V240 : Option ℚ
  V250 : Option ℚ
  V252 : Option ℚ
  V253 : Option ℚ
  V257 : Option ℚ
  V258 : Option ℚ
  V260 : Option ℚ
  V261 : Option ℚ
  V264 : Option ℚ
  V266 : Option ℚ
  V267 : Option ℚ
  V271 : Option ℚ
  V274 : Option ℚ
  V277 : Option ℚ
  V281 : Option ℚ
  V283 : Option ℚ
  V284 : Option ℚ
  V285 : Option ℚ
  V286 : Option ℚ
  V289 : Option ℚ
  V291 : Option ℚ
  V294 : Option ℚ
  V296 : Option ℚ
  V297 : Option ℚ
  V301 : Option ℚ
  V303 : Option ℚ
  V305 : Option ℚ
  V307 : Option ℚ
  V309 : Option ℚ
  V310 : Option ℚ
  V314 : Option ℚ
  V320 : Option ℚ
deriving DecidableEq


/-- The three-part normalized output of a valid row. -/
structure RowData where
  transaction : Transaction
  identity : Option Identity
  vFeatures : Option VFeatures
deriving DecidableEq

/-- The tagged result of `validateRow`: `{valid: true, data}` or
`{valid: false, error}`. -/
inductive ValidationResult where
  | ok (data : RowData)
  | err (error : String)
deriving DecidableEq

/-- The `valid` tag of a `validateRow` result. -/
def ValidationResult.isValid : ValidationResult → Bool
  | .ok _ => true
  | .err _ => false

/-- `validateRow` of the wide IEEE-CIS schema (`validator.js`): reject on
a falsy `TransactionID`, a nullish `TransactionDT`, or a nullish or
negative `TransactionAmt`; otherwise normalize every field fail-softly.
The nondeterministic `id: uuidv4()` and `createdAt: new Date()` system
fields are outside the model. -/
def validateRow (rawRow : RawRow) : ValidationResult :=
  if jsFalsy (rawRow.get "TransactionID") then .err "Missing TransactionID"
  else if isNullish (rawRow.get "TransactionDT") then .err "Missing TransactionDT"
  else if isNullish (rawRow.get "TransactionAmt") || jsLtZero (rawRow.get "TransactionAmt") then
    .err "Invalid TransactionAmt"
  else
    let transaction : Transaction := {
    TransactionID := V1.toBigInt (rawRow.get "TransactionID"),
    TransactionDT := V1.toBigInt (rawRow.get "TransactionDT"),
    TransactionAmt := V1.toDecimal (rawRow.get "TransactionAmt"),
    ProductCD := V1.toString (rawRow.get "ProductCD"),
    card1 := V1.toInt (rawRow.get "card1"),
    card2 := V1.toInt (rawRow.get "card2"),
    card3 := V1.toInt (rawRow.get "card3"),
    card4 := V1.toString (rawRow.get "card4"),
    card5 := V1.toInt (rawRow.get "card5"),
    card6 := V1.toString (rawRow.get "card6"),
    addr1 := V1.toInt (rawRow.get "addr1"),
    addr2 := V1.toInt (rawRow.get "addr2"),
    dist1 := V1.toFloat (rawRow.get "dist1"),
    dist2 := V1.toFloat (rawRow.get "dist2"),
    P_emaildomain := V1.toString (rawRow.get "P_emaildomain"),
    R_emaildomain := V1.toString (rawRow.get "R_emaildomain"),
    C1 := V1.toFloat (rawRow.get "C1"),
    C2 := V1.toFloat (rawRow.get "C2"),
    C3 := V1.toFloat (rawRow.get "C3"),
    C4 := V1.toFloat (rawRow.get "C4"),
    C5 := V1.toFloat (rawRow.get "C5"),
    C6 := V1.toFloat (rawRow.get "C6"),
    C7 := V1.toFloat (rawRow.get "C7"),
    C8 := V1.toFloat (rawRow.get "C8"),
    C9 := V1.toFloat (rawRow.get "C9"),
    C10 := V1.toFloat (rawRow.get "C10"),
    C11 := V1.toFloat (rawRow.get "C11"),
    C12 := V1.toFloat (rawRow.get "C12"),
    C13 := V1.toFloat (rawRow.get "C13"),
    C14 := V1.toFloat (rawRow.get "C14"),
    D1 := V1.toFloat (rawRow.get "D1"),
    D2 := V1.toFloat (rawRow.get "D2"),
    D3 := V1.toFloat (rawRow.get "D3"),
    D4 := V1.toFloat (rawRow.get "D4"),
    D5 := V1.toFloat (rawRow.get "D5"),
    D6 := V1.toFloat (rawRow.get "D6"),
    D7 := V1.toFloat (rawRow.get "D7"),
    D8 := V1.toFloat (rawRow.get "D8"),
    D9 := V1.toFloat (rawRow.get "D9"),
    D10 := V1.toFloat (rawRow.get "D10"),
    D11 := V1.toFloat (rawRow.get "D11"),
    D12 := V1.toFloat (rawRow.get "D12"),
    D13 := V1.toFloat (rawRow.get "D13"),
    D14 := V1.toFloat (rawRow.get "D14"),
    D15 := V1.toFloat (rawRow.get "D15"),
    M1 := V1.toChar (rawRow.get "M1"),
    M2 := V1.toChar (rawRow.get "M2"),
    M3 := V1.toChar (rawRow.get "M3"),
    M4 := V1.toChar (rawRow.get "M4"),
    M5 := V1.toChar (rawRow.get "M5"),
    M6 := V1.toChar (rawRow.get "M6"),
    M7 := V1.toChar (rawRow.get "M7"),
    M8 := V1.toChar (rawRow.get "M8"),
    M9 := V1.toChar (rawRow.get "M9"),
    isFraud := V1.toBoolean (rawRow.get "isFraud"),
      status := "PENDING" }
    let hasIdentityData :=
      ID_COLUMNS.any (fun col => !(rawRow.get col == .undefined)) ||
        !(rawRow.get "DeviceType" == .undefined) || !(rawRow.get "DeviceInfo" == .undefined)
    let identity : Option Identity :=
      if hasIdentityData then
        some {
          id_01 := V1.toFloat (rawRow.get "id_01"),
          id_02 := V1.toFloat (rawRow.get "id_02"),
          id_03 := V1.toFloat (rawRow.get "id_03"),
          id_04 := V1.toFloat (rawRow.get "id_04"),
          id_05 := V1.toFloat (rawRow.get "id_05"),
          id_06 := V1.toFloat (rawRow.get "id_06"),
          id_07 := V1.toFloat (rawRow.get "id_07"),
          id_08 := V1.toFloat (rawRow.get "id_08"),
          id_09 := V1.toFloat (rawRow.get "id_09"),
          id_10 := V1.toFloat (rawRow.get "id_10"),
          id_11 := V1.toFloat (rawRow.get "id_11"),
          id_12 := V1.toString (rawRow.get "id_12"),
          id_13 := V1.toFloat (rawRow.get "id_13"),
          id_14 := V1.toFloat (rawRow.get "id_14"),
          id_15 := V1.toString (rawRow.get "id_15"),
          id_16 := V1.toString (rawRow.get "id_16"),
          id_17 := V1.toFloat (rawRow.get "id_17"),
          id_18 := V1.toFloat (rawRow.get "id_18"),
          id_19 := V1.toFloat (rawRow.get "id_19"),
          id_20 := V1.toFloat (rawRow.get "id_20"),
          id_21 := V1.toFloat (rawRow.get "id_21"),
          id_22 := V1.toFloat (rawRow.get "id_22"),
          id_23 := V1.toString (rawRow.get "id_23"),
          id_24 := V1.toFloat (rawRow.get "id_24"),
          id_25 := V1.toFloat (rawRow.get "id_25"),
          id_26 := V1.toFloat (rawRow.get "id_26"),
          id_27 := V1.toString (rawRow.get "id_27"),
          id_28 := V1.toString (rawRow.get "id_28"),
          id_29 := V1.toString (rawRow.get "id_29"),
          id_30 := V1.toString (rawRow.get "id_30"),
          id_31 := V1.toString (rawRow.get "id_31"),
          id_32 := V1.toFloat (rawRow.get "id_32"),
          id_33 := V1.toString (rawRow.get "id_33"),
          id_34 := V1.toString (rawRow.get "id_34"),
          id_35 := V1.toString (rawRow.get "id_35"),
          id_36 := V1.toString (rawRow.get "id_36"),
          id_37 := V1.toString (rawRow.get "id_37"),
          id_38 := V1.toString (rawRow.get "id_38"),
          DeviceType := V1.toString (rawRow.get "DeviceType"),
          DeviceInfo := V1.toString (rawRow.get "DeviceInfo")         }
      else none
    let hasVData := V_COLUMNS.any (fun col => !(rawRow.get col == .undefined))
    let vFeatures : Option VFeatures :=
      if hasVData then
        some {
          V1 := V1.toFloat (rawRow.get "V1"),
          V3 := V1.toFloat (rawRow.get "V3"),
          V4 := V1.toFloat (rawRow.get "V4"),
          V6 := V1.toFloat (rawRow.get "V6"),
          V8 := V1.toFloat (rawRow.get "V8"),
          V11 := V1.toFloat (rawRow.get "V11"),
          V13 := V1.toFloat (rawRow.get "V13"),
          V14 := V1.toFloat (rawRow.get "V14"),
          V17 := V1.toFloat (rawRow.get "V17"),
          V20 := V1.toFloat (rawRow.get "V20"),
          V23 := V1.toFloat (rawRow.get "V23"),
          V26 := V1.toFloat (rawRow.get "V26"),
          V27 := V1.toFloat (rawRow.get "V27"),
          V30 := V1.toFloat (rawRow.get "V30"),
          V36 := V1.toFloat (rawRow.get "V36"),
          V37 := V1.toFloat (rawRow.get "V37"),
          V40 := V1.toFloat (rawRow.get "V40"),
          V41 := V1.toFloat (rawRow.get "V41"),
          V44 := V1.toFloat (rawRow.get "V44"),
          V47 := V1.toFloat (rawRow.get "V47"),
          V48 := V1.toFloat (rawRow.get "V48"),
          V54 := V1.toFloat (rawRow.get "V54"),
          V56 := V1.toFloat (rawRow.get "V56"),
          V59 := V1.toFloat (rawRow.get "V59"),
          V62 := V1.toFloat (rawRow.get "V62"),
          V65 := V1.toFloat (rawRow.get "V65"),
          V67 := V1.toFloat (rawRow.get "V67"),
          V68 := V1.toFloat (rawRow.get "V68"),
          V70 := V1.toFloat (rawRow.get "V70"),
          V76 := V1.toFloat (rawRow.get "V76"),
          V78 := V1.toFloat (rawRow.get "V78"),
          V80 := V1.toFloat (rawRow.get "V80"),
          V82 := V1.toFloat (rawRow.get "V82"),
          V86 := V1.toFloat (rawRow.get "V86"),
          V88 := V1.toFloat (rawRow.get "V88"),
          V89 := V1.toFloat (rawRow.get "V89"),
          V91 := V1.toFloat (rawRow.get "V91"),
          V107 := V1.toFloat (rawRow.get "V107"),
          V108 := V1.toFloat (rawRow.get "V108"),
          V111 := V1.toFloat (rawRow.get "V111"),
          V115 := V1.toFloat (rawRow.get "V115"),
          V117 := V1.toFloat (rawRow.get "V117"),
          V120 := V1.toFloat (rawRow.get "V120"),
          V121 := V1.toFloat (rawRow.get "V121"),
          V123 := V1.toFloat (rawRow.get "V123"),
          V124 := V1.toFloat (rawRow.get "V124"),
          V127 := V1.toFloat (rawRow.get "V127"),
          V129 := V1.toFloat (rawRow.get "V129"),
          V130 := V1.toFloat (rawRow.get "V130"),
          V136 := V1.toFloat (rawRow.get "V136"),
          V138 := V1.toFloat (rawRow.get "V138"),
          V139 := V1.toFloat (rawRow.get "V139"),
          V142 := V1.toFloat (rawRow.get "V142"),
          V147 := V1.toFloat (rawRow.get "V147"),
          V156 := V1.toFloat (rawRow.get "V156"),
          V160 := V1.toFloat (rawRow.get "V160"),
          V162 := V1.toFloat (rawRow.get "V162"),
          V165 := V1.toFloat (rawRow.get "V165"),
          V166 := V1.toFloat (rawRow.get "V166"),
          V169 := V1.toFloat (rawRow.get "V169"),
          V171 := V1.toFloat (rawRow.get "V171"),
          V173 := V1.toFloat (rawRow.get "V173"),
          V175 := V1.toFloat (rawRow.get "V175"),
          V176 := V1.toFloat (rawRow.get "V176"),
          V178 := V1.toFloat (rawRow.get "V178"),
          V180 := V1.toFloat (rawRow.get "V180"),
          V182 := V1.toFloat (rawRow.get "V182"),
          V185 := V1.toFloat (rawRow.get "V185"),
          V187 := V1.toFloat (rawRow.get "V187"),
          V188 := V1.toFloat (rawRow.get "V188"),
          V198 := V1.toFloat (rawRow.get "V198"),
          V203 := V1.toFloat (rawRow.get "V203"),
          V205 := V1.toFloat (rawRow.get "V205"),
          V207 := V1.toFloat (rawRow.get "V207"),
          V209 := V1.toFloat (rawRow.get "V209"),
          V210 := V1.toFloat (rawRow.get "V210"),
          V215 := V1.toFloat (rawRow.get "V215"),
          V218 := V1.toFloat (rawRow.get "V218"),
          V220 := V1.toFloat (rawRow.get "V220"),
          V221 := V1.toFloat (rawRow.get "V221"),
          V223 := V1.toFloat (rawRow.get "V223"),
          V224 := V1.toFloat (rawRow.get "V224"),
          V226 := V1.toFloat (rawRow.get "V226"),
          V228 := V1.toFloat (rawRow.get "V228"),
          V229 := V1.toFloat (rawRow.get "V229"),
          V234 := V1.toFloat (rawRow.get "V234"),
          V235 := V1.toFloat (rawRow.get "V235"),
          V238 := V1.toFloat (rawRow.get "V238"),
          V240 := V1.toFloat (rawRow.get "V240"),
          V250 := V1.toFloat (rawRow.get "V250"),
          V252 := V1.toFloat (rawRow.get "V252"),
          V253 := V1.toFloat (rawRow.get "V253"),
          V257 := V1.toFloat (rawRow.get "V257"),
          V258 := V1.toFloat (rawRow.get "V258"),
          V260 := V1.toFloat (rawRow.get "V260"),
          V261 := V1.toFloat (rawRow.get "V261"),
          V264 := V1.toFloat (rawRow.get "V264"),
          V266 := V1.toFloat (rawRow.get "V266"),
          V267 := V1.toFloat (rawRow.get "V267"),
          V271 := V1.toFloat (rawRow.get "V271"),
          V274 := V1.toFloat (rawRow.get "V274"),
          V277 := V1.toFloat (rawRow.get "V277"),
          V281 := V1.toFloat (rawRow.get "V281"),
          V283 := V1.toFloat (rawRow.get "V283"),
          V284 := V1.toFloat (rawRow.get "V284"),
          V285 := V1.toFloat (rawRow.get "V285"),
          V286 := V1.toFloat (rawRow.get "V286"),
          V289 := V1.toFloat (rawRow.get "V289"),
          V291 := V1.toFloat (rawRow.get "V291"),
          V294 := V1.toFloat (rawRow.get "V294"),
          V296 := V1.toFloat (rawRow.get "V296"),
          V297 := V1.toFloat (rawRow.get "V297"),
          V301 := V1.toFloat (rawRow.get "V301"),
          V303 := V1.toFloat (rawRow.get "V303"),
          V305 := V1.toFloat (rawRow.get "V305"),
          V307 := V1.toFloat (rawRow.get "V307"),
          V309 := V1.toFloat (rawRow.get "V309"),
          V310 := V1.toFloat (rawRow.get "V310"),
          V314 := V1.toFloat (rawRow.get "V314"),
          V320 := V1.toFloat (rawRow.get "V320")         }
      else none
    .ok { transaction := transaction, identity := identity, vFeatures := vFeatures }

/-- One collected error detail: a validation entry with its row ordinal, or
an insertion entry with the transaction key and the fault's message. -/
inductive ErrEntry where
  | rowErr (row : ℕ) (error : String)
  | insertErr (txid : Option ℤ) (error : String)
deriving DecidableEq

/-- The in-memory ingestion context of `parseAndIngest`. -/
structure Context where
  recordsProcessed : ℕ
  recordsFailed : ℕ
  errors : List ErrEntry
deriving DecidableEq

/-- The status of the persisted dataset run. -/
inductive RunStatus where
  | RUNNING
  | COMPLETED
  | FAILED
deriving DecidableEq

/-- The persisted `datasetRun` record: status, checkpointed progress, and
whether `endedAt` has been written. -/
structure RunRecord where
  status : RunStatus
  recordsProcessed : ℕ
  endedAtSet : Bool
deriving DecidableEq

/-- The abstract store: the run record, the count of committed transaction
rows, the count of issued single-record create operations, and the count of
periodic progress updates. -/
structure Store where
  run : Option RunRecord
  committed : ℕ
  createCalls : ℕ
  progressUpdates : ℕ
deriving DecidableEq

/-- `processRow` of `main.js`: validate; count a validation failure with a
capped error entry; otherwise issue the insert — a store fault (injected
here as `insertFault`: `none` is success, `some msg` a fault with message
`msg`) is isolated, counted and capped-recorded, while a success commits
the row and every 50th processed record checkpoints run progress. -/
def processRow (row : RawRow) (insertFault : Option String) (ctx : Context) (st : Store) :
    Context × Store :=
  match validateRow row with
  | .err e =>
    let ctx1 : Context := { ctx with recordsFailed := ctx.recordsFailed + 1 }
    let ctx2 : Context :=
      if ctx1.errors.length < 50 then
        { ctx1 with
            errors := ctx1.errors ++ [.rowErr (ctx1.recordsFailed + ctx1.recordsProcessed) e] }
      else ctx1
    (ctx2, st)
  | .ok data =>
    let st1 : Store := { st with createCalls := st.createCalls + 1 }
    match insertFault with
    | none =>
      let st2 : Store := { st1 with committed := st1.committed + 1 }
      let ctx1 : Context := { ctx with recordsProcessed := ctx.recordsProcessed + 1 }
      if ctx1.recordsProcessed % 50 = 0 then
        (ctx1,
         { st2 with
             run := st2.run.map (fun r => { r with recordsProcessed := ctx1.recordsProcessed }),
             progressUpdates := st2.progressUpdates + 1 })
      else (ctx1, st2)
    | some msg =>
      let ctx1 : Context := { ctx with recordsFailed := ctx.recordsFailed + 1 }
      let ctx2 : Context :=
        if ctx1.errors.length < 50 then
          { ctx1 with errors := ctx1.errors ++ [.insertErr data.transaction.TransactionID msg] }
        else ctx1
      (ctx2, st1)

/-- The combined machine state while rows stream through the pipeline;
`consumed` is the source's `rowsStreamed` counter. -/
structure PipeState where
  ctx : Context
  store : Store
  consumed : ℕ
deriving DecidableEq

/-- Consume one row: count it and run `processRow`, the insert outcome
drawn from the oracle `io` at this row's consumption index. -/
def step (io : ℕ → Option String) (s : PipeState) (row : RawRow) : PipeState :=
  let p := processRow row (io s.consumed) s.ctx s.store
  { ctx := p.1, store := p.2, consumed := s.consumed + 1 }

/-- The state right after run creation: a RUNNING run record with zero
progress, and zeroed counters. -/
def pipeInit : PipeState :=
  { ctx := { recordsProcessed := 0, recordsFailed := 0, errors := [] },
    store := { run := some { status := .RUNNING, recordsProcessed := 0, endedAtSet := false },
               committed := 0, createCalls := 0, progressUpdates := 0 },
    consumed := 0 }

/-- Substring test (JavaScript `String.prototype.includes`). -/
def listContainsChars (pat : List Char) : List Char → Bool
  | [] => pat.isEmpty
  | c :: cs => pat.isPrefixOf (c :: cs) || listContainsChars pat cs

/-- `s.includes(pat)`. -/
def strContains (s pat : String) : Bool := listContainsChars pat.data s.data

/-- `s.endsWith(pat)`. -/
def strEndsWith (s pat : String) : Bool := pat.data.isSuffixOf s.data

/-- Format dispatch of `parseAndIngest`: streaming CSV when the lowercased
path ends with `.csv` or contains the uniqueness marker `.csv-`. -/
def isCsvPath (p : String) : Bool :=
  strEndsWith (strToLower p) ".csv" || strContains (strToLower p) ".csv-"

/-- The rows the source actually yields.  Both branches cap at `maxRows`
(the CSV stream destroys itself at the cap, the whole-file branch slices).
An injected extraction fault `some k` models a stream error after `k` rows
on the CSV path (it fires only if the stream is still open there) and a
file-level parse rejection (no rows at all) on the whole-file path. -/
def consumedRows (filePath : String) (rows : List RawRow) (maxRows : ℕ)
    (fault : Option ℕ) : List RawRow :=
  if isCsvPath filePath then
    match fault with
    | some k => if k < min rows.length maxRows then (rows.take maxRows).take k
                else rows.take maxRows
    | none => rows.take maxRows
  else
    match fault with
    | some _ => []
    | none => rows.take maxRows

/-- Whether the injected extraction fault actually aborts the run. -/
def extractionFails (filePath : String) (rows : List RawRow) (maxRows : ℕ)
    (fault : Option ℕ) : Bool :=
  if isCsvPath filePath then
    match fault with
    | some k => k < min rows.length maxRows
    | none => false
  else
    fault.isSome

/-- The structured result returned on completion. -/
structure IngestResult where
  success : Bool
  recordsProcessed : ℕ
  recordsFailed : ℕ
  errors : List ErrEntry
deriving DecidableEq

/-- What the caller of `parseAndIngest` observes: the structured result, or
a propagated (re-raised) error. -/
inductive Outcome where
  | ok (r : IngestResult)
  | err
deriving DecidableEq

/-- The filesystem as far as the pipeline touches it: whether the temporary
input file still exists, and how many unlink calls were issued on it. -/
structure FsState where
  fileExists : Bool
  unlinkAttempts : ℕ
deriving DecidableEq

/-- The `finally` block of `parseAndIngest`: if the file exists an unlink is
attempted; `unlinkOk` injects the unlink outcome, and an unlink fault is
swallowed (logged only). -/
def cleanup (fs : FsState) (unlinkOk : Bool) : FsState :=
  if fs.fileExists then
    if unlinkOk then { fileExists := false, unlinkAttempts := fs.unlinkAttempts + 1 }
    else { fs with unlinkAttempts := fs.unlinkAttempts + 1 }
  else fs

/-- Every checkpoint state of a run: the state after run creation followed
by the state after each consumed row. -/
def ingestTrace (filePath : String) (rows : List RawRow) (maxRows : ℕ)
    (io : ℕ → Option String) (fault : Option ℕ) : List PipeState :=
  List.scanl (step io) pipeInit (consumedRows filePath rows maxRows fault)

/-- `parseAndIngest` of `main.js` over the injected environment: create the
run record, consume the capped row sequence (streaming or whole-file by
format dispatch), then either finalize the run as COMPLETED and return the
structured result, or — on an extraction fault — mark the run FAILED with
`endedAt` set and re-raise.  The temporary file is cleaned up on both exit
paths. -/
def parseAndIngest (filePath : String) (rows : List RawRow) (maxRows : ℕ)
    (io : ℕ → Option String) (fault : Option ℕ) (fs0 : FsState) (unlinkOk : Bool) :
    Outcome × Store × FsState :=
  let s1 := (consumedRows filePath rows maxRows fault).foldl (step io) pipeInit
  let fs1 := cleanup fs0 unlinkOk
  if extractionFails filePath rows maxRows fault then
    (Outcome.err,
     { s1.store with
         run := s1.store.run.map (fun r => { r with status := .FAILED, endedAtSet := true }) },
     fs1)
  else
    (Outcome.ok { success := true, recordsProcessed := s1.ctx.recordsProcessed,
                  recordsFailed := s1.ctx.recordsFailed, errors := s1.ctx.errors },
     { s1.store with
         run := s1.store.run.map (fun r =>
           { r with status := .COMPLETED, recordsProcessed := s1.ctx.recordsProcessed,
                    endedAtSet := true }) },
     fs1)

theorem dropWhile_head_false {p : Char → Bool} :
    ∀ (l : List Char) (c : Char) (t : List Char), l.dropWhile p = c :: t → p c = false := by
  intro l
  induction l with
  | nil => intro c t h; simp at h
  | cons a as ih =>
    intro c t h
    rw [List.dropWhile_cons] at h
    by_cases hp : p a
    · rw [if_pos hp] at h; exact ih c t h
    · rw [if_neg hp] at h
      injection h with h1 _
      subst h1
      simpa using hp

theorem trimEnd_shape (c : Char) (cs : List Char) :
    trimEnd (c :: cs) = [] ∨ ∃ r, trimEnd (c :: cs) = c :: r := by
  rw [trimEnd]
  cases trimEnd cs with
  | nil =>
    by_cases hw : isWs c
    · left; simp [hw]
    · right; exact ⟨[], by simp [hw]⟩
  | cons a r => right; exact ⟨a :: r, rfl⟩

theorem trimEnd_idem : ∀ l : List Char, trimEnd (trimEnd l) = trimEnd l := by
  intro l
  induction l with
  | nil => rfl
  | cons c cs ih =>
    rw [trimEnd]
    cases h : trimEnd cs with
    | nil =>
      by_cases hw : isWs c
      · simp only [if_pos hw]
        rfl
      · simp only [if_neg hw]
        rw [trimEnd]
        simp [hw, trimEnd]
    | cons a r =>
      have h2 : trimEnd (a :: r) = a :: r := by
        rw [← h, ih, h]
      rw [trimEnd, h2]

theorem trimChars_head_false {l t : List Char} {c : Char}
    (h : trimChars l = c :: t) : isWs c = false := by
  unfold trimChars at h
  cases hd : l.dropWhile isWs with
  | nil => rw [hd] at h; simp [trimEnd] at h
  | cons a as =>
    rw [hd] at h
    rcases trimEnd_shape a as with h0 | ⟨r, hr⟩
    · rw [h0] at h; cases h
    · rw [hr] at h
      injection h with h1 _
      exact h1 ▸ dropWhile_head_false l a as hd

theorem trimChars_idem (l : List Char) : trimChars (trimChars l) = trimChars l := by
  have h1 : (trimChars l).dropWhile isWs = trimChars l := by
    cases h : trimChars l with
    | nil => simp
    | cons c t =>
      rw [List.dropWhile_cons, trimChars_head_false h]
      simp
  unfold trimChars
  rw [show trimChars l = trimEnd (l.dropWhile isWs) from rfl] at h1
  rw [h1, trimEnd_idem]

theorem trimEnd_noWs : ∀ l : List Char, (∀ c ∈ l, isWs c = false) → trimEnd l = l := by
  intro l
  induction l with
  | nil => intro _; rfl
  | cons c cs ih =>
    intro h
    rw [trimEnd]
    have hcs := ih (fun a ha => h a (List.mem_cons_of_mem _ ha))
    rw [hcs]
    cases cs with
    | nil => simp [h c (List.mem_cons_self c [])]
    | cons a as => rfl

theorem dropWhile_noWs (l : List Char) (h : ∀ c ∈ l, isWs c = false) :
    l.dropWhile isWs = l := by
  cases l with
  | nil => rfl
  | cons c cs => rw [List.dropWhile_cons, h c (List.mem_cons_self c cs)]; simp

theorem trimChars_noWs (l : List Char) (h : ∀ c ∈ l, isWs c = false) : trimChars l = l := by
  unfold trimChars
  rw [dropWhile_noWs l h, trimEnd_noWs l h]

theorem digChar_not_ws (d : ℕ) : isWs (digChar d) = false := by
  unfold digChar
  split_ifs <;> decide

theorem natDigsGo_mem : ∀ (fuel n : ℕ) (acc : List Char) (c : Char),
    c ∈ natDigsGo fuel n acc → (∃ d, c = digChar d) ∨ c ∈ acc := by
  intro fuel
  induction fuel with
  | zero => intro n acc c h; exact Or.inr h
  | succ f ih =>
    intro n acc c h
    rw [natDigsGo] at h
    split at h
    · rcases List.mem_cons.mp h with h1 | h1
      · exact Or.inl ⟨n, h1⟩
      · exact Or.inr h1
    · rcases ih (n / 10) _ c h with h1 | h1
      · exact Or.inl h1
      · rcases List.mem_cons.mp h1 with h2 | h2
        · exact Or.inl ⟨n % 10, h2⟩
        · exact Or.inr h2

theorem natDigsGo_ne_nil : ∀ (fuel n : ℕ) (acc : List Char),
    natDigsGo (fuel + 1) n acc ≠ [] := by
  intro fuel
  induction fuel with
  | zero =>
    intro n acc
    rw [natDigsGo]
    split
    · exact List.cons_ne_nil _ _
    · rw [natDigsGo]; exact List.cons_ne_nil _ _
  | succ f ih =>
    intro n acc
    rw [natDigsGo]
    split
    · exact List.cons_ne_nil _ _
    · exact ih (n / 10) _

theorem natDigs_ne_nil (n : ℕ) : natDigs n ≠ [] := natDigsGo_ne_nil n n []

theorem natDigs_noWs (n : ℕ) : ∀ c ∈ natDigs n, isWs c = false := by
  intro c hc
  rcases natDigsGo_mem (n + 1) n [] c hc with ⟨d, hd⟩ | h
  · rw [hd]; exact digChar_not_ws d
  · cases h

theorem intChars_noWs (n : ℤ) : ∀ c ∈ intChars n, isWs c = false := by
  intro c hc
  unfold intChars at hc
  split at hc
  · rcases List.mem_cons.mp hc with h | h
    · subst h; decide
    · exact natDigs_noWs _ c h
  · exact natDigs_noWs _ c hc

theorem intChars_ne_nil (n : ℤ) : intChars n ≠ [] := by
  unfold intChars
  split
  · exact List.cons_ne_nil _ _
  · exact natDigs_ne_nil _

theorem ratChars_noWs (q : ℚ) : ∀ c ∈ ratChars q, isWs c = false := by
  intro c hc
  unfold ratChars at hc
  split at hc
  · exact intChars_noWs _ c hc
  · rcases List.mem_append.mp hc with h | h
    · exact intChars_noWs _ c h
    · rcases List.mem_cons.mp h with h1 | h1
      · subst h1; decide
      · exact natDigs_noWs _ c h1

theorem ratChars_ne_nil (q : ℚ) : ratChars q ≠ [] := by
  unfold ratChars
  split
  · exact intChars_ne_nil _
  · intro h
    rcases List.append_eq_nil.mp h with ⟨h1, _⟩
    exact intChars_ne_nil _ h1

/-- Re-injection of a nullable rational helper output into the value domain. -/
def injQ : Option ℚ → JsValue
  | none => .null
  | some q => .num q

/-- Re-injection of a nullable integer (a JavaScript number) output. -/
def injZnum : Option ℤ → JsValue
  | none => .null
  | some n => .num (n : ℚ)

/-- Re-injection of a nullable BigInt output. -/
def injZbig : Option ℤ → JsValue
  | none => .null
  | some n => .bigint n

/-- Re-injection of a nullable string output. -/
def injS : Option String → JsValue
  | none => .null
  | some s => .str s

theorem ratTrunc_intCast (n : ℤ) : ratTrunc (n : ℚ) = n := by
  unfold ratTrunc
  split_ifs
  · exact Int.ceil_intCast n
  · exact Int.floor_intCast n

theorem toChar_some {v : JsValue} {cs : String} (h : V1.toChar v = some cs) :
    ∃ c, cs = String.mk [c] ∧ isWs c = false := by
  unfold V1.toChar at h
  split at h
  · cases h
  · cases ht : trimChars (jsToStr v).data with
    | nil => rw [ht] at h; cases h
    | cons c t =>
      rw [ht] at h
      injection h with h1
      exact ⟨c, h1.symm, trimChars_head_false ht⟩

theorem toChar_single (c : Char) (hc : isWs c = false) :
    V1.toChar (.str (String.mk [c])) = some (String.mk [c]) := by
  unfold V1.toChar
  have habs : isAbsent (.str (String.mk [c])) = false := rfl
  rw [habs]
  simp only [if_neg Bool.false_ne_true]
  have hid : trimChars (jsToStr (.str (String.mk [c]))).data = [c] :=
    trimChars_noWs [c] (by intro a ha; rcases List.mem_singleton.mp ha with rfl; exact hc)
  rw [hid]

theorem toChar_idem (v : JsValue) : V1.toChar (injS (V1.toChar v)) = V1.toChar v := by
  cases h : V1.toChar v with
  | none => rfl
  | some cs =>
    rcases toChar_some h with ⟨c, rfl, hc⟩
    exact toChar_single c hc

theorem toStr_num (q : ℚ) :
    V1.toString (.num q) = some (String.mk (ratChars q)) := by
  unfold V1.toString
  rw [show isAbsent (.num q) = false from rfl]
  simp only [if_neg Bool.false_ne_true]
  rw [show (jsToStr (.num q)).data = ratChars q from rfl,
    trimChars_noWs _ (ratChars_noWs q)]

theorem toStr_bigint (n : ℤ) :
    V1.toString (.bigint n) = some (String.mk (intChars n)) := by
  unfold V1.toString
  rw [show isAbsent (.bigint n) = false from rfl]
  simp only [if_neg Bool.false_ne_true]
  rw [show (jsToStr (.bigint n)).data = intChars n from rfl,
    trimChars_noWs _ (intChars_noWs n)]

theorem toStr_nonempty_chars (a : Char) (t : List Char) :
    V1.toString (.str (String.mk (a :: t))) = some (String.mk (trimChars (a :: t))) := by
  unfold V1.toString
  rw [show isAbsent (.str (String.mk (a :: t))) = false from rfl]
  simp only [if_neg Bool.false_ne_true]
  rfl

theorem toStr_idem (v : JsValue) (hne : V1.toString v ≠ some "") :
    V1.toString (injS (V1.toString v)) = V1.toString v := by
  cases v with
  | null => rfl
  | undefined => rfl
  | bool b => cases b <;> decide
  | num q =>
    rw [toStr_num q]
    cases hr : ratChars q with
    | nil => exact absurd hr (ratChars_ne_nil q)
    | cons a t =>
      show V1.toString (.str (String.mk (a :: t))) = some (String.mk (a :: t))
      rw [toStr_nonempty_chars a t, ← hr, trimChars_noWs _ (ratChars_noWs q)]
  | bigint n =>
    rw [toStr_bigint n]
    cases hr : intChars n with
    | nil => exact absurd hr (intChars_ne_nil n)
    | cons a t =>
      show V1.toString (.str (String.mk (a :: t))) = some (String.mk (a :: t))
      rw [toStr_nonempty_chars a t, ← hr, trimChars_noWs _ (intChars_noWs n)]
  | str s =>
    by_cases hs : s = ""
    · subst hs; rfl
    · have h1 : V1.toString (.str s) = some (String.mk (trimChars s.data)) := by
        unfold V1.toString
        rw [show isAbsent (.str s) = (s == "") from rfl]
        simp [hs, jsToStr]
      rw [h1] at hne ⊢
      cases ht : trimChars s.data with
      | nil => exact absurd rfl (ht ▸ hne)
      | cons a t =>
        show V1.toString (.str (String.mk (a :: t))) = some (String.mk (a :: t))
        rw [toStr_nonempty_chars a t, ← ht, trimChars_idem]

/-- Claim C9 (counterexample): re-coercing the output of `toString` is not
always the identity — on the whitespace-only string `" "` the first
application yields `""` and the second yields null. -/
theorem c9_counterexample :
    V1.toString (injS (V1.toString (.str " "))) ≠ V1.toString (.str " ") := by
  decide

/-- Claim C9 (amended): each coercion helper except `toString` is
idempotent on every raw value; `toString` is idempotent on every value
whose first coercion does not produce the empty string (it fails exactly
on whitespace-only nonempty strings, which coerce to `""` and then
to null). -/
theorem c9_coercion_idempotent (v : JsValue) :
    V1.toBoolean (.bool (V1.toBoolean v)) = V1.toBoolean v
    ∧ V1.toFloat (injQ (V1.toFloat v)) = V1.toFloat v
    ∧ V1.toInt (injZnum (V1.toInt v)) = V1.toInt v
    ∧ V1.toBigInt (injZbig (V1.toBigInt v)) = V1.toBigInt v
    ∧ V1.toDecimal (.num (V1.toDecimal v)) = V1.toDecimal v
    ∧ V1.toChar (injS (V1.toChar v)) = V1.toChar v
    ∧ (V1.toString v ≠ some "" →
        V1.toString (injS (V1.toString v)) = V1.toString v) := by
  refine ⟨rfl, ?_, ?_, ?_, rfl, toChar_idem v, toStr_idem v⟩
  · cases h : V1.toFloat v with
    | none => rfl
    | some q => rfl
  · cases h : V1.toInt v with
    | none => rfl
    | some n =>
      show V1.toInt (.num (n : ℚ)) = some n
      unfold V1.toInt
      rw [show isAbsent (.num (n : ℚ)) = false from rfl]
      simp only [if_neg Bool.false_ne_true]
      rw [show jsParseInt (.num (n : ℚ)) = some (ratTrunc (n : ℚ)) from rfl,
        ratTrunc_intCast]
  · cases h : V1.toBigInt v with
    | none => rfl
    | some n =>
      show V1.toBigInt (.bigint n) = some n
      unfold V1.toBigInt
      rw [show isAbsent (.bigint n) = false from rfl]
      simp only [if_neg Bool.false_ne_true]
      rw [show jsNumber (.bigint n) = some ((n : ℚ)) from rfl]
      show some ⌊(n : ℚ)⌋ = some n
      rw [Int.floor_intCast]

/-- Claim C9 (witness): the integer 5 re-coerces to itself through the
integer rule, and 5 re-coerces to itself through the string rule. -/
theorem c9_coercion_idempotent_witness :
    V1.toInt (injZnum (V1.toInt (.num 5))) = V1.toInt (.num 5)
    ∧ V1.toString (injS (V1.toString (.num 5))) = V1.toString (.num 5) :=
  ⟨(c9_coercion_idempotent (.num 5)).2.2.1,
   (c9_coercion_idempotent (.num 5)).2.2.2.2.2.2 (by decide)⟩

/-- Claim C7: every coercion helper is a total function of the raw value
domain; an absent value (null, undefined, empty string) yields null for
the nullable helpers, `false` for the flag helper and `0` for the decimal
helper; an unparsable string yields null (or `0` for the decimal helper);
and `validateRow` always returns one of its two tagged results. -/
theorem c7_coercion_fail_soft (v : JsValue) (s : String) (row : RawRow) :
    (isAbsent v = true →
       V1.toFloat v = none ∧ V1.toInt v = none ∧ V1.toBigInt v = none
       ∧ V1.toString v = none ∧ V1.toChar v = none
       ∧ V1.toBoolean v = false ∧ V1.toDecimal v = 0)
    ∧ (parseFloatStr s = none →
        V1.toFloat (.str s) = none ∧ V1.toDecimal (.str s) = 0)
    ∧ (parseIntStr s = none → V1.toInt (.str s) = none)
    ∧ (parseNumWhole s = none → V1.toBigInt (.str s) = none)
    ∧ ((∃ d, validateRow row = .ok d) ∨ (∃ e, validateRow row = .err e)) := by
  refine ⟨?_, ?_, ?_, ?_, ?_⟩
  · intro h
    exact ⟨by simp [V1.toFloat, h], by simp [V1.toInt, h], by simp [V1.toBigInt, h],
      by simp [V1.toString, h], by simp [V1.toChar, h],
      by simp [V1.toBoolean, h], by simp [V1.toDecimal, h]⟩
  · intro h
    constructor
    · unfold V1.toFloat
      by_cases hs : s = ""
      · simp [isAbsent, hs]
      · simp [isAbsent, hs, jsParseFloat, h]
    · unfold V1.toDecimal
      by_cases hs : s = ""
      · simp [isAbsent, hs]
      · simp [isAbsent, hs, jsParseFloat, h]
  · intro h
    unfold V1.toInt
    by_cases hs : s = ""
    · simp [isAbsent, hs]
    · simp [isAbsent, hs, jsParseInt, h]
  · intro h
    unfold V1.toBigInt
    by_cases hs : s = ""
    · simp [isAbsent, hs]
    · simp [isAbsent, hs, jsNumber, h]
  · cases h : validateRow row with
    | ok d => exact Or.inl ⟨d, rfl⟩
    | err e => exact Or.inr ⟨e, rfl⟩

/-- Claim C7 (witness): at the absent value null, the unparsable string
`"abc"`, and the empty row, the fail-soft contract holds concretely. -/
theorem c7_coercion_fail_soft_witness :
    V1.toFloat .null = none ∧ V1.toDecimal (.str "abc") = 0
    ∧ ((∃ d, validateRow [] = .ok d) ∨ (∃ e, validateRow [] = .err e)) :=
  ⟨((c7_coercion_fail_soft .null "abc" []).1 (by decide)).1,
   ((c7_coercion_fail_soft .null "abc" []).2.1 (by decide)).2,
   (c7_coercion_fail_soft .null "abc" []).2.2.2.2⟩

/-- The truthy-token acceptance set described by the specification: the
boolean `true`, the number `1`, or a string matching one of the
case-insensitive tokens `true`, `yes`, `1`, `y`, `t`. -/
def truthyTokenSpec (v : JsValue) : Prop :=
  v = .bool true ∨ v = .num 1 ∨
    ∃ s, v = .str s ∧
      (strToLower s = "true" ∨ strToLower s = "yes" ∨ strToLower s = "1" ∨
        strToLower s = "y" ∨ strToLower s = "t")

/-- Claim C8 (counterexample): the narrow schema's boolean coercion does
not satisfy the token contract — the number 2 is none of the truthy
tokens yet coerces to `true` (and the token `"t"` coerces to `false`
there). -/
theorem c8_counterexample :
    V2.toBoolean (.num 2) = true ∧ ¬ truthyTokenSpec (.num 2)
    ∧ V2.toBoolean (.str "t") = false := by
  refine ⟨by decide, ?_, by decide⟩
  rintro (h | h | ⟨s, h, _⟩)
  · cases h
  · injection h with h1
    norm_num at h1
  · cases h

/-- Claim C8 (amended): the wide schema's boolean coercion returns `true`
exactly on the spec's truthy tokens; the narrow schema's instead passes
booleans through, accepts only the string tokens `true`/`yes`/`1`/`y`
(not `t`) case-insensitively, and falls back to JavaScript truthiness on
every other value (so any nonzero number is `true`). -/
theorem c8_boolean_coercion (v : JsValue) (b : Bool) (s : String) (q : ℚ) (n : ℤ) :
    (V1.toBoolean v = true ↔ truthyTokenSpec v)
    ∧ V2.toBoolean (.bool b) = b
    ∧ (V2.toBoolean (.str s) = true ↔
        (strToLower s = "true" ∨ strToLower s = "yes" ∨ strToLower s = "1" ∨
          strToLower s = "y"))
    ∧ V2.toBoolean (.num q) = !(q == 0)
    ∧ V2.toBoolean (.bigint n) = !(n == 0)
    ∧ V2.toBoolean .null = false ∧ V2.toBoolean .undefined = false := by
  refine ⟨?_, rfl, ?_, rfl, rfl, rfl, rfl⟩
  · constructor
    · intro h
      cases v with
      | null => cases h
      | undefined => cases h
      | bool c =>
        cases c
        · cases h
        · exact Or.inl rfl
      | num p =>
        simp only [V1.toBoolean, isAbsent, Bool.false_eq_true, if_false, beq_iff_eq] at h
        exact Or.inr (Or.inl (by rw [h]))
      | bigint m => cases h
      | str t =>
        by_cases ht : t = ""
        · subst ht; cases h
        · simp only [V1.toBoolean, isAbsent, V1.truthy1] at h
          rw [show (t == "") = decide (t = "") from rfl] at h
          simp only [ht, decide_False, Bool.false_eq_true, if_false, Bool.or_eq_true,
            beq_iff_eq] at h
          refine Or.inr (Or.inr ⟨t, rfl, by tauto⟩)
    · intro h
      rcases h with h | h | ⟨t, rfl, ht⟩
      · subst h; rfl
      · subst h; rfl
      · have htne : t ≠ "" := by
          intro h0
          subst h0
          rcases ht with h1 | h1 | h1 | h1 | h1 <;> simp [strToLower] at h1
        simp only [V1.toBoolean, isAbsent, V1.truthy1]
        rw [show (t == "") = decide (t = "") from rfl]
        simp only [htne, decide_False, Bool.false_eq_true, if_false, Bool.or_eq_true,
          beq_iff_eq]
        tauto
  · simp only [V2.toBoolean, V2.truthy2, Bool.or_eq_true, beq_iff_eq]
    tauto

/-- Claim C10: a present-but-falsy `TransactionID` (the number 0 or the
empty string) is rejected as missing. -/
theorem c10_falsy_transaction_id (row : RawRow) :
    row.get "TransactionID" = .num 0 ∨ row.get "TransactionID" = .str "" →
    validateRow row = .err "Missing TransactionID" := by
  intro h
  unfold validateRow
  rcases h with h | h <;> rw [h] <;> rfl

/-- Claim C10 (witness): a row carrying `TransactionID = 0` is rejected
with the missing-identifier error. -/
theorem c10_falsy_transaction_id_witness :
    validateRow [("TransactionID", .num 0), ("TransactionDT", .num 1),
      ("TransactionAmt", .num 10)] = .err "Missing TransactionID" :=
  c10_falsy_transaction_id _ (Or.inl rfl)

/-- A minimal valid row: identifier, time and amount present. -/
def sampleValidRow : RawRow :=
  [("TransactionID", .num 1), ("TransactionDT", .num 1), ("TransactionAmt", .num 10)]

/-- A row lacking the mandatory amount field. -/
def rowNoAmt : RawRow := [("TransactionID", .num 2), ("TransactionDT", .num 1)]

/-- Store oracle: every insert succeeds. -/
def ioAllOk : ℕ → Option String := fun _ => none

/-- Store oracle: the insert of the first consumed row faults. -/
def ioFail0 : ℕ → Option String := fun i => if i = 0 then some "DB error" else none

/-- A filesystem state in which the temporary upload file exists. -/
def fsInit : FsState := { fileExists := true, unlinkAttempts := 0 }

/-- Scenario A input: two valid rows and one missing the amount. -/
def scenarioARows : List RawRow := [sampleValidRow, sampleValidRow, rowNoAmt]

/-- Scenario B input: 250 valid rows for the whole-file path. -/
def rows250 : List RawRow := List.replicate 250 sampleValidRow

/-- The counter invariant of a pipeline state: processed plus failed rows
equal the consumed rows, processed rows equal committed rows, and the
checkpointed run progress never exceeds the committed rows. -/
def pipeInv (s : PipeState) : Prop :=
  s.ctx.recordsProcessed + s.ctx.recordsFailed = s.consumed
  ∧ s.ctx.recordsProcessed = s.store.committed
  ∧ (∀ r, s.store.run = some r → r.recordsProcessed ≤ s.store.committed)

theorem pipeInit_inv : pipeInv pipeInit := by
  refine ⟨rfl, rfl, ?_⟩
  intro r hr
  injection hr with h
  rw [← h]
  exact Nat.zero_le _

theorem step_pipeInv (io : ℕ → Option String) (s : PipeState) (row : RawRow)
    (h : pipeInv s) : pipeInv (step io s row) := by
  obtain ⟨h1, h2, h3⟩ := h
  unfold step processRow
  cases hv : validateRow row with
  | err e =>
    refine ⟨?_, ?_, ?_⟩
    · dsimp only
      split_ifs <;> dsimp only <;> omega
    · dsimp only
      split_ifs <;> dsimp only <;> omega
    · exact h3
  | ok d =>
    cases hio : io s.consumed with
    | none =>
      refine ⟨?_, ?_, ?_⟩
      · dsimp only
        split_ifs <;> dsimp only <;> omega
      · dsimp only
        split_ifs <;> dsimp only <;> omega
      · dsimp only
        split_ifs with hmod
        · intro r hr
          dsimp only at hr
          rcases Option.map_eq_some'.mp hr with ⟨r0, hr0, hf⟩
          rw [← hf]
          dsimp only
          omega
        · intro r hr
          dsimp only at hr
          exact le_trans (h3 r hr) (Nat.le_succ _)
    | some msg =>
      refine ⟨?_, ?_, ?_⟩
      · dsimp only
        split_ifs <;> dsimp only <;> omega
      · dsimp only
        split_ifs <;> dsimp only <;> omega
      · exact h3

theorem foldl_pipeInv (io : ℕ → Option String) :
    ∀ (l : List RawRow) (s : PipeState), pipeInv s → pipeInv (l.foldl (step io) s) := by
  intro l
  induction l with
  | nil => intro s h; exact h
  | cons a t ih => intro s h; exact ih (step io s a) (step_pipeInv io s a h)

theorem scanl_pipeInv (io : ℕ → Option String) :
    ∀ (l : List RawRow) (s : PipeState), pipeInv s →
      ∀ x ∈ List.scanl (step io) s l, pipeInv x := by
  intro l
  induction l with
  | nil =>
    intro s h x hx
    rw [List.scanl_nil] at hx
    rcases List.mem_singleton.mp hx with rfl
    exact h
  | cons a t ih =>
    intro s h x hx
    rw [List.scanl_cons] at hx
    rcases List.mem_cons.mp (by simpa using hx) with rfl | hx2
    · exact h
    · exact ih (step io s a) (step_pipeInv io s a h) x hx2

theorem step_consumed (io : ℕ → Option String) (s : PipeState) (row : RawRow) :
    (step io s row).consumed = s.consumed + 1 := rfl

theorem foldl_consumed (io : ℕ → Option String) :
    ∀ (l : List RawRow) (s : PipeState),
      (l.foldl (step io) s).consumed = s.consumed + l.length := by
  intro l
  induction l with
  | nil => intro s; rfl
  | cons a t ih =>
    intro s
    rw [List.foldl_cons, ih (step io s a), step_consumed]
    simp [List.length_cons]
    omega

theorem scanl_consumed_le (io : ℕ → Option String) :
    ∀ (l : List RawRow) (s : PipeState),
      ∀ x ∈ List.scanl (step io) s l, x.consumed ≤ s.consumed + l.length := by
  intro l
  induction l with
  | nil =>
    intro s x hx
    rw [List.scanl_nil] at hx
    rcases List.mem_singleton.mp hx with rfl
    simp
  | cons a t ih =>
    intro s x hx
    rw [List.scanl_cons] at hx
    rcases List.mem_cons.mp (by simpa using hx) with rfl | hx2
    · simp
    · have := ih (step io s a) x hx2
      rw [step_consumed] at this
      simp only [List.length_cons]
      omega

theorem consumedRows_length_le (filePath : String) (rows : List RawRow) (maxRows : ℕ)
    (fault : Option ℕ) : (consumedRows filePath rows maxRows fault).length ≤ maxRows := by
  unfold consumedRows
  split_ifs
  · cases fault with
    | none => simp [List.length_take]
    | some k =>
      dsimp only
      split_ifs
      · simp [List.length_take]
        try omega
      · simp [List.length_take]
  · cases fault with
    | none => simp [List.length_take]
    | some k => simp

/-- Claim C1: at every checkpoint of every run, recordsProcessed plus
recordsFailed equals the rows consumed so far and consumption never
exceeds the configured cap; the returned counters equal the total
consumption; and the persisted run record's progress never exceeds the
rows committed to the store, at every checkpoint and in the final
persisted record. -/
theorem c1_counters_invariant (filePath : String) (rows : List RawRow) (maxRows : ℕ)
    (io : ℕ → Option String) (fault : Option ℕ) (fs0 : FsState) (uk : Bool) :
    (∀ s ∈ ingestTrace filePath rows maxRows io fault,
       s.ctx.recordsProcessed + s.ctx.recordsFailed = s.consumed
       ∧ s.consumed ≤ maxRows
       ∧ (∀ r, s.store.run = some r → r.recordsProcessed ≤ s.store.committed))
    ∧ (∀ res, (parseAndIngest filePath rows maxRows io fault fs0 uk).1 = Outcome.ok res →
        res.recordsProcessed + res.recordsFailed
            = (consumedRows filePath rows maxRows fault).length
          ∧ res.recordsProcessed + res.recordsFailed ≤ maxRows)
    ∧ (∀ r, (parseAndIngest filePath rows maxRows io fault fs0 uk).2.1.run = some r →
        r.recordsProcessed ≤ (parseAndIngest filePath rows maxRows io fault fs0 uk).2.1.committed) := by
  have hlen := consumedRows_length_le filePath rows maxRows fault
  have hfinal := foldl_pipeInv io (consumedRows filePath rows maxRows fault) pipeInit pipeInit_inv
  have hcons := foldl_consumed io (consumedRows filePath rows maxRows fault) pipeInit
  have h0 : pipeInit.consumed = 0 := rfl
  refine ⟨?_, ?_, ?_⟩
  · intro s hs
    unfold ingestTrace at hs
    obtain ⟨i1, i2, i3⟩ := scanl_pipeInv io _ pipeInit pipeInit_inv s hs
    have hle := scanl_consumed_le io _ pipeInit s hs
    exact ⟨i1, by omega, i3⟩
  · intro res hres
    cases hE : extractionFails filePath rows maxRows fault with
    | true => simp only [parseAndIngest, hE, if_true] at hres; cases hres
    | false =>
      simp only [parseAndIngest, hE, Bool.false_eq_true, if_false] at hres
      injection hres with hres1
      rw [← hres1]
      dsimp only
      obtain ⟨i1, i2, i3⟩ := hfinal
      constructor
      · omega
      · omega
  · intro r hr
    cases hE : extractionFails filePath rows maxRows fault with
    | true =>
      simp only [parseAndIngest, hE, if_true] at hr ⊢
      rcases Option.map_eq_some'.mp hr with ⟨r0, hr0, hf⟩
      rw [← hf]
      exact hfinal.2.2 r0 hr0
    | false =>
      simp only [parseAndIngest, hE, Bool.false_eq_true, if_false] at hr ⊢
      rcases Option.map_eq_some'.mp hr with ⟨r0, hr0, hf⟩
      rw [← hf]
      exact le_of_eq hfinal.2.1

/-- Claim C1 (witness): the invariant concretely at the first checkpoint
of a three-row run with cap 5. -/
theorem c1_counters_invariant_witness :
    pipeInit.ctx.recordsProcessed + pipeInit.ctx.recordsFailed = pipeInit.consumed
    ∧ pipeInit.consumed ≤ 5 :=
  ⟨((c1_counters_invariant "upload.csv" scenarioARows 5 ioAllOk none fsInit true).1 pipeInit
      (by decide)).1,
   ((c1_counters_invariant "upload.csv" scenarioARows 5 ioAllOk none fsInit true).1 pipeInit
      (by decide)).2.1⟩

/-- Whether the row consumed at index `i` fails: invalid, or valid with a
faulting insert. -/
def rowFails (io : ℕ → Option String) (i : ℕ) (row : RawRow) : Bool :=
  match validateRow row with
  | .err _ => true
  | .ok _ => (io i).isSome

/-- The number of failing rows in a consumed sequence starting at index `i`. -/
def countFails (io : ℕ → Option String) : ℕ → List RawRow → ℕ
  | _, [] => 0
  | i, r :: rs => (if rowFails io i r then 1 else 0) + countFails io (i + 1) rs

theorem step_recordsFailed (io : ℕ → Option String) (s : PipeState) (row : RawRow) :
    (step io s row).ctx.recordsFailed
      = s.ctx.recordsFailed + (if rowFails io s.consumed row then 1 else 0) := by
  unfold step processRow rowFails
  cases hv : validateRow row with
  | err e =>
    dsimp only
    split_ifs <;> first | rfl | simp_all
  | ok d =>
    cases hio : io s.consumed with
    | none =>
      dsimp only [Option.isSome]
      split_ifs <;> first | rfl | simp_all
    | some msg =>
      dsimp only [Option.isSome]
      split_ifs <;> first | rfl | simp_all

theorem step_errors_cap (io : ℕ → Option String) (s : PipeState) (row : RawRow)
    (h : s.ctx.errors.length = min s.ctx.recordsFailed 50) :
    (step io s row).ctx.errors.length = min (step io s row).ctx.recordsFailed 50 := by
  unfold step processRow
  cases hv : validateRow row with
  | err e =>
    dsimp only
    split_ifs with hc <;> simp only [List.length_append, List.length_cons, List.length_nil] <;> omega
  | ok d =>
    cases hio : io s.consumed with
    | none =>
      dsimp only
      split_ifs <;> exact h
    | some msg =>
      dsimp only
      split_ifs with hc <;> simp only [List.length_append, List.length_cons, List.length_nil] <;> omega

theorem scanl_errors_cap (io : ℕ → Option String) :
    ∀ (l : List RawRow) (s : PipeState),
      s.ctx.errors.length = min s.ctx.recordsFailed 50 →
      ∀ x ∈ List.scanl (step io) s l, x.ctx.errors.length = min x.ctx.recordsFailed 50 := by
  intro l
  induction l with
  | nil =>
    intro s h x hx
    rw [List.scanl_nil] at hx
    rcases List.mem_singleton.mp hx with rfl
    exact h
  | cons a t ih =>
    intro s h x hx
    rw [List.scanl_cons] at hx
    rcases List.mem_cons.mp (by simpa using hx) with rfl | hx2
    · exact h
    · exact ih (step io s a) (step_errors_cap io s a h) x hx2

theorem foldl_recordsFailed (io : ℕ → Option String) :
    ∀ (l : List RawRow) (s : PipeState),
      (l.foldl (step io) s).ctx.recordsFailed
        = s.ctx.recordsFailed + countFails io s.consumed l := by
  intro l
  induction l with
  | nil => intro s; rfl
  | cons a t ih =>
    intro s
    rw [List.foldl_cons, ih (step io s a), step_recordsFailed, countFails]
    rw [step_consumed]
    omega

theorem foldl_errors_cap (io : ℕ → Option String) :
    ∀ (l : List RawRow) (s : PipeState),
      s.ctx.errors.length = min s.ctx.recordsFailed 50 →
      (l.foldl (step io) s).ctx.errors.length
        = min (l.foldl (step io) s).ctx.recordsFailed 50 := by
  intro l
  induction l with
  | nil => intro s h; exact h
  | cons a t ih => intro s h; exact ih (step io s a) (step_errors_cap io s a h)

/-- Claim C4: the collected error-detail list never exceeds 50 entries at
any checkpoint (it holds exactly the first 50 failures), while
recordsFailed counts every failing consumed row exactly, both in the
final context and in the returned result. -/
theorem c4_error_cap (filePath : String) (rows : List RawRow) (maxRows : ℕ)
    (io : ℕ → Option String) (fault : Option ℕ) (fs0 : FsState) (uk : Bool) :
    (∀ s ∈ ingestTrace filePath rows maxRows io fault,
       s.ctx.errors.length ≤ 50
       ∧ s.ctx.errors.length = min s.ctx.recordsFailed 50)
    ∧ ((consumedRows filePath rows maxRows fault).foldl (step io) pipeInit).ctx.recordsFailed
        = countFails io 0 (consumedRows filePath rows maxRows fault)
    ∧ (∀ res, (parseAndIngest filePath rows maxRows io fault fs0 uk).1 = Outcome.ok res →
        res.errors.length ≤ 50
        ∧ res.errors.length = min res.recordsFailed 50
        ∧ res.recordsFailed = countFails io 0 (consumedRows filePath rows maxRows fault)) := by
  have hrf := foldl_recordsFailed io (consumedRows filePath rows maxRows fault) pipeInit
  have hcap := foldl_errors_cap io (consumedRows filePath rows maxRows fault) pipeInit rfl
  refine ⟨?_, ?_, ?_⟩
  · intro s hs
    unfold ingestTrace at hs
    have h := scanl_errors_cap io _ pipeInit rfl s hs
    exact ⟨by omega, h⟩
  · rw [hrf]
    show 0 + countFails io 0 _ = _
    rw [Nat.zero_add]
  · intro res hres
    cases hE : extractionFails filePath rows maxRows fault with
    | true => simp only [parseAndIngest, hE, if_true] at hres; cases hres
    | false =>
      simp only [parseAndIngest, hE, Bool.false_eq_true, if_false] at hres
      injection hres with hres1
      rw [← hres1]
      dsimp only
      refine ⟨by omega, hcap, ?_⟩
      rw [hrf]
      show 0 + countFails io 0 _ = _
      rw [Nat.zero_add]

/-- Claim C4 (witness): the cap bound concretely at the first checkpoint,
and the exact failure count of the three-row scenario A run. -/
theorem c4_error_cap_witness :
    pipeInit.ctx.errors.length ≤ 50
    ∧ ((consumedRows "upload.csv" scenarioARows 10000 none).foldl
          (step ioAllOk) pipeInit).ctx.recordsFailed
        = countFails ioAllOk 0 (consumedRows "upload.csv" scenarioARows 10000 none) :=
  ⟨((c4_error_cap "upload.csv" scenarioARows 10000 ioAllOk none fsInit true).1 pipeInit
      (by decide)).1,
   (c4_error_cap "upload.csv" scenarioARows 10000 ioAllOk none fsInit true).2.1⟩

theorem step_run_isSome (io : ℕ → Option String) (s : PipeState) (row : RawRow) :
    (step io s row).store.run.isSome = s.store.run.isSome := by
  unfold step processRow
  cases hv : validateRow row with
  | err e => rfl
  | ok d =>
    cases hio : io s.consumed with
    | none =>
      dsimp only
      split_ifs <;> simp
    | some msg => rfl

theorem foldl_run_isSome (io : ℕ → Option String) :
    ∀ (l : List RawRow) (s : PipeState),
      (l.foldl (step io) s).store.run.isSome = s.store.run.isSome := by
  intro l
  induction l with
  | nil => intro s; rfl
  | cons a t ih =>
    intro s
    rw [List.foldl_cons, ih (step io s a), step_run_isSome]

/-- Claim C5: whenever `parseAndIngest` propagates an error, the persisted
run record has been moved to FAILED with its end timestamp set; and the
caller always observes either a structured success result or a propagated
error. -/
theorem c5_fatal_marks_failed (filePath : String) (rows : List RawRow) (maxRows : ℕ)
    (io : ℕ → Option String) (fault : Option ℕ) (fs0 : FsState) (uk : Bool) :
    ((parseAndIngest filePath rows maxRows io fault fs0 uk).1 = Outcome.err →
      ∃ r, (parseAndIngest filePath rows maxRows io fault fs0 uk).2.1.run = some r
        ∧ r.status = RunStatus.FAILED ∧ r.endedAtSet = true)
    ∧ ((parseAndIngest filePath rows maxRows io fault fs0 uk).1 = Outcome.err
       ∨ ∃ res, (parseAndIngest filePath rows maxRows io fault fs0 uk).1 = Outcome.ok res
           ∧ res.success = true) := by
  cases hE : extractionFails filePath rows maxRows fault with
  | true =>
    constructor
    · intro _
      simp only [parseAndIngest, hE, if_true]
      have hS : (List.foldl (step io) pipeInit
          (consumedRows filePath rows maxRows fault)).store.run.isSome = true := by
        rw [foldl_run_isSome]
        rfl
      rcases Option.isSome_iff_exists.mp hS with ⟨r0, hr0⟩
      refine ⟨{ r0 with status := .FAILED, endedAtSet := true }, ?_, rfl, rfl⟩
      dsimp only
      rw [hr0]
      rfl
    · left
      simp only [parseAndIngest, hE, if_true]
  | false =>
    constructor
    · intro h
      simp only [parseAndIngest, hE, Bool.false_eq_true, if_false] at h
      cases h
    · right
      simp only [parseAndIngest, hE, Bool.false_eq_true, if_false]
      exact ⟨_, rfl, rfl⟩

/-- Claim C5 (witness): a file-level extraction fault on the whole-file
path leaves the concrete run FAILED with `endedAt` set. -/
theorem c5_fatal_marks_failed_witness :
    ∃ r, (parseAndIngest "data.xlsx" scenarioARows 10000 ioAllOk (some 0) fsInit true).2.1.run
        = some r ∧ r.status = RunStatus.FAILED ∧ r.endedAtSet = true :=
  (c5_fatal_marks_failed "data.xlsx" scenarioARows 10000 ioAllOk (some 0) fsInit true).1
    (by decide)

theorem parseAndIngest_fs (filePath : String) (rows : List RawRow) (maxRows : ℕ)
    (io : ℕ → Option String) (fault : Option ℕ) (fs0 : FsState) (uk : Bool) :
    (parseAndIngest filePath rows maxRows io fault fs0 uk).2.2 = cleanup fs0 uk := by
  unfold parseAndIngest
  split <;> rfl

theorem cleanup_attempts (fs0 : FsState) (uk : Bool) (h : fs0.fileExists = true) :
    (cleanup fs0 uk).unlinkAttempts = fs0.unlinkAttempts + 1 := by
  unfold cleanup
  rw [h]
  split_ifs <;> first | rfl | simp_all

theorem cleanup_removes (fs0 : FsState) : (cleanup fs0 true).fileExists = false := by
  unfold cleanup
  split_ifs with h1 h2 <;> first | rfl | simp_all

/-- Claim C6: on every exit path the temporary file's deletion is
attempted whenever the file exists, a successful unlink leaves the file
absent, and the unlink outcome never changes the outcome or the store
state delivered to the caller. -/
theorem c6_cleanup_always (filePath : String) (rows : List RawRow) (maxRows : ℕ)
    (io : ℕ → Option String) (fault : Option ℕ) (fs0 : FsState) (uk : Bool) :
    (fs0.fileExists = true →
      (parseAndIngest filePath rows maxRows io fault fs0 uk).2.2.unlinkAttempts
        = fs0.unlinkAttempts + 1)
    ∧ (uk = true → (parseAndIngest filePath rows maxRows io fault fs0 uk).2.2.fileExists = false)
    ∧ (parseAndIngest filePath rows maxRows io fault fs0 uk).1
        = (parseAndIngest filePath rows maxRows io fault fs0 true).1
    ∧ (parseAndIngest filePath rows maxRows io fault fs0 uk).2.1
        = (parseAndIngest filePath rows maxRows io fault fs0 true).2.1 := by
  refine ⟨?_, ?_, ?_, ?_⟩
  · intro h
    rw [parseAndIngest_fs]
    exact cleanup_attempts fs0 uk h
  · intro h
    subst h
    rw [parseAndIngest_fs]
    exact cleanup_removes fs0
  · unfold parseAndIngest
    split <;> rfl
  · unfold parseAndIngest
    split <;> rfl

/-- Claim C6 (witness): with the file present, the run attempts exactly one
unlink even when the unlink faults, and a successful unlink removes the
file. -/
theorem c6_cleanup_always_witness :
    (parseAndIngest "upload.csv" scenarioARows 10000 ioAllOk none fsInit false).2.2.unlinkAttempts
      = fsInit.unlinkAttempts + 1
    ∧ (parseAndIngest "upload.csv" scenarioARows 10000 ioAllOk none fsInit true).2.2.fileExists
        = false :=
  ⟨(c6_cleanup_always "upload.csv" scenarioARows 10000 ioAllOk none fsInit false).1 rfl,
   (c6_cleanup_always "upload.csv" scenarioARows 10000 ioAllOk none fsInit true).2.1 rfl⟩

theorem isNullish_falsy {v : JsValue} (h : isNullish v = true) : jsFalsy v = true := by
  cases v <;> simp_all [isNullish, jsFalsy]

/-- Claim C2: a row with an absent mandatory identifying field
(`TransactionID`, `TransactionDT`) or an absent or negative
`TransactionAmt` is always rejected, whatever the other fields hold; and
the three-row scenario A run (valid, valid, missing amount) returns
recordsProcessed 2, recordsFailed 1 and a single error entry. -/
theorem c2_mandatory_rejection (row : RawRow) :
    ((isNullish (row.get "TransactionID") = true
      ∨ isNullish (row.get "TransactionDT") = true
      ∨ isNullish (row.get "TransactionAmt") = true
      ∨ (∃ q : ℚ, q < 0 ∧ row.get "TransactionAmt" = .num q)) →
      (validateRow row).isValid = false)
    ∧ (parseAndIngest "upload.csv" scenarioARows 10000 ioAllOk none fsInit true).1
        = Outcome.ok
            { success := true, recordsProcessed := 2, recordsFailed := 1,
              errors := [ErrEntry.rowErr 3 "Invalid TransactionAmt"] } := by
  constructor
  · intro h
    unfold validateRow
    split_ifs with h1 h2 h3
    · rfl
    · rfl
    · rfl
    · exfalso
      rcases h with h | h | h | ⟨q, hq, hA⟩
      · exact h1 (isNullish_falsy h)
      · exact h2 h
      · exact h3 (by rw [h]; rfl)
      · apply h3
        rw [hA]
        have : jsLtZero (.num q) = true := by
          unfold jsLtZero jsNumber
          exact decide_eq_true hq
        rw [this]
        simp
  · decide

/-- Claim C2 (witness): the concrete row lacking its amount is rejected. -/
theorem c2_mandatory_rejection_witness :
    (validateRow rowNoAmt).isValid = false :=
  (c2_mandatory_rejection rowNoAmt).1 (Or.inr (Or.inr (Or.inl rfl)))

theorem consumedRows_none (filePath : String) (rows : List RawRow) (maxRows : ℕ) :
    consumedRows filePath rows maxRows none = rows.take maxRows := by
  unfold consumedRows
  split <;> rfl

theorem extractionFails_none (filePath : String) (rows : List RawRow) (maxRows : ℕ) :
    extractionFails filePath rows maxRows none = false := by
  unfold extractionFails
  split <;> rfl

/-- Whether `validateRow` accepts the row. -/
def isValidRow (r : RawRow) : Bool := (validateRow r).isValid

theorem step_createCalls (io : ℕ → Option String) (s : PipeState) (row : RawRow) :
    (step io s row).store.createCalls
      = s.store.createCalls + (if isValidRow row then 1 else 0) := by
  unfold isValidRow
  unfold step processRow
  cases hv : validateRow row with
  | err e => rfl
  | ok d =>
    cases hio : io s.consumed with
    | none =>
      dsimp only
      split_ifs <;> simp_all [ValidationResult.isValid]
    | some msg =>
      dsimp only
      split_ifs <;> simp_all [ValidationResult.isValid]

theorem foldl_createCalls (io : ℕ → Option String) :
    ∀ (l : List RawRow) (s : PipeState),
      (l.foldl (step io) s).store.createCalls
        = s.store.createCalls + l.countP isValidRow := by
  intro l
  induction l with
  | nil => intro s; rfl
  | cons a t ih =>
    intro s
    rw [List.foldl_cons, ih (step io s a), step_createCalls, List.countP_cons]
    split_ifs <;> omega

set_option maxRecDepth 100000 in
/-- Claim C3 (counterexample): on a 250-row whole-file input the pipeline
issues 250 single-record creates (not 3 bulk inserts) and 5 periodic
progress updates (not 3), and an insert fault on the first row is
isolated per row — the run still completes with 249 processed — rather
than aborting the pipeline. -/
theorem c3_counterexample :
    (parseAndIngest "data.xlsx" rows250 10000 ioAllOk none fsInit true).2.1.createCalls = 250
    ∧ (parseAndIngest "data.xlsx" rows250 10000 ioAllOk none fsInit true).2.1.progressUpdates = 5
    ∧ (parseAndIngest "data.xlsx" rows250 10000 ioFail0 none fsInit true).1
        = Outcome.ok
            { success := true, recordsProcessed := 249, recordsFailed := 1,
              errors := [ErrEntry.insertErr (some 1) "DB error"] } := by
  refine ⟨by decide, by decide, by decide⟩

set_option maxRecDepth 100000 in
/-- Claim C3 (amended): whole-file mode has no batching and no batch-size
parameter: it processes rows one at a time exactly like streaming mode —
one single-record create per valid consumed row, per-row isolation of
insert faults (the pipeline always returns a structured result when
extraction succeeds), and a progress update every 50th committed record;
a 250-row whole-file input therefore yields 250 single-record creates and
5 progress updates rather than 3 bulk-insert batches and 3 updates. -/
theorem c3_wholefile_per_row (rows : List RawRow) (maxRows : ℕ)
    (io : ℕ → Option String) (fs0 : FsState) (uk : Bool) :
    (∃ res, (parseAndIngest "data.xlsx" rows maxRows io none fs0 uk).1 = Outcome.ok res)
    ∧ (parseAndIngest "data.xlsx" rows maxRows io none fs0 uk).2.1.createCalls
        = (rows.take maxRows).countP isValidRow
    ∧ (parseAndIngest "data.xlsx" rows250 10000 ioAllOk none fsInit true).2.1.createCalls = 250
    ∧ (parseAndIngest "data.xlsx" rows250 10000 ioAllOk none fsInit true).2.1.progressUpdates
        = 5 := by
  refine ⟨?_, ?_, by decide, by decide⟩
  · simp only [parseAndIngest, extractionFails_none, Bool.false_eq_true, if_false]
    exact ⟨_, rfl⟩
  · simp only [parseAndIngest, extractionFails_none, Bool.false_eq_true, if_false]
    show (List.foldl (step io) pipeInit
        (consumedRows "data.xlsx" rows maxRows none)).store.createCalls
      = (rows.take maxRows).countP isValidRow
    rw [foldl_createCalls io _ pipeInit, consumedRows_none]
    show 0 + _ = _
    rw [Nat.zero_add]
